import Mathlib

/-
  Verification development for the brkn-store backend (src/backend/api.js).

  The file shallowly embeds the Express route handlers and the two
  authentication middlewares as pure Lean functions.  External calls to the
  Supabase client are modelled by an environment record (Env) holding
  oracle functions for the auth endpoints and the table contents for the
  relational queries.  The PostgREST query-builder semantics used by the
  code (filter by eq, order descending, single-row coercion) are embedded
  as list operations; the single-row coercion follows the documented
  PostgREST behaviour of reporting error code PGRST116 (with data null)
  whenever the result set does not hold exactly one row.
-/

namespace BrknStore

/-- An identity record as returned by the auth endpoint (supabase.auth). -/
structure User where
  id : String
  email : String
deriving Repr, DecidableEq

/-- The session object inside a successful sign-in response. -/
structure Session where
  access_token : String
  expires_in : Nat
deriving Repr, DecidableEq

/-- The data object of a sign-in response: a user plus, possibly, a session.
A missing session models a response whose session field is null, in which
case reading session.access_token raises a TypeError in the source. -/
structure SessionData where
  user : User
  session : Option Session
deriving Repr, DecidableEq

/-- A row of the users table as selected by GET /store/me and the admin
middleware (name, phone, email, created_at, role). -/
structure Profile where
  name : String
  phone : String
  email : String
  created_at : Nat
  role : String
deriving Repr, DecidableEq

/-- The row inserted into the users table by POST /store/register. -/
structure ProfileInsert where
  supabase_id : String
  name : String
  phone : String
  email : String
  role : String
deriving Repr, DecidableEq

/-- A row of the orders table (the fields the handler relies on). -/
structure OrderRow where
  id : String
  user_id : String
  created_at : Nat
deriving Repr, DecidableEq

/-- A row of the products table.  images is an ordered sequence when the
stored value is an array and none when it is any non-array value; the two
timestamps are none when the stored value is null (or otherwise falsy). -/
structure ProductRow where
  id : String
  name : String
  description : String
  status : String
  images : Option (List String)
  price : Nat
  created_at : Option Nat
  updated_at : Option Nat
deriving Repr, DecidableEq

/-- A PostgREST error as surfaced by the client: a code and a message. -/
structure DbErr where
  code : String
  message : String
deriving Repr, DecidableEq

/-- The error PostgREST reports when .single() does not receive exactly
one row (code PGRST116). -/
def pgrst116 : DbErr :=
  ⟨"PGRST116", "JSON object requested, multiple (or no) rows returned"⟩

/-- Cookie operations a handler may perform on the response:
res.cookie with options (set) or res.clearCookie (clear). -/
inductive CookieOp where
  | set (name value : String) (httpOnly : Bool) (maxAge : Nat) (sameSite path : String)
  | clear (name path : String)
deriving Repr, DecidableEq

/-- A JSON response body: either an error envelope or a payload. -/
inductive Body (α : Type) where
  | err (msg : String)
  | ok (val : α)
deriving Repr, DecidableEq

/-- An HTTP response: status code, cookie operations, body. -/
structure Resp (α : Type) where
  status : Nat
  cookies : List CookieOp
  body : Body α
deriving Repr, DecidableEq

/-- The outcome of an Express middleware: either respond and stop (halt)
or attach the user to the request and run the handler (proceed). -/
inductive MwResult where
  | halt (status : Nat) (msg : String) (cookies : List CookieOp)
  | proceed (user : User)
deriving Repr, DecidableEq

/-- External write effects of a handler, recorded in order.  The
identityDelete effect exists only to state that registration performs no
compensating delete of the auth identity. -/
inductive Effect where
  | signUpCall (email password : String)
  | profileInsert (row : ProfileInsert)
  | identityDelete (id : String)
deriving Repr, DecidableEq

/-
  Descending sort by a Nat key: the embedding of the query-builder
  .order(column, ascending false).  Insertion sort; the claims only use
  that the output is a permutation-free reordering (same membership) that
  is pairwise descending on the key.
-/

/-- Insert an element into a list kept descending by key. -/
def insertByDesc {α : Type} (key : α → Nat) (x : α) : List α → List α
  | [] => [x]
  | y :: ys => if key y ≤ key x then x :: y :: ys else y :: insertByDesc key x ys

/-- Sort a list descending by key. -/
def sortByDesc {α : Type} (key : α → Nat) : List α → List α
  | [] => []
  | x :: xs => insertByDesc key x (sortByDesc key xs)

theorem mem_insertByDesc {α : Type} (key : α → Nat) (x a : α) (l : List α) :
    a ∈ insertByDesc key x l ↔ a = x ∨ a ∈ l := by
  induction l with
  | nil => simp [insertByDesc]
  | cons y ys ih =>
    simp only [insertByDesc]
    split
    · simp [List.mem_cons]
    · simp [List.mem_cons, ih]
      tauto

theorem pairwise_insertByDesc {α : Type} (key : α → Nat) (x : α) (l : List α)
    (h : l.Pairwise (fun a b => key b ≤ key a)) :
    (insertByDesc key x l).Pairwise (fun a b => key b ≤ key a) := by
  induction l with
  | nil => simp [insertByDesc]
  | cons y ys ih =>
    rw [List.pairwise_cons] at h
    obtain ⟨hy, hys⟩ := h
    simp only [insertByDesc]
    split
    · rename_i hle
      refine List.pairwise_cons.2 ⟨?_, List.pairwise_cons.2 ⟨hy, hys⟩⟩
      intro b hb
      rcases List.mem_cons.1 hb with rfl | hb
      · exact hle
      · exact le_trans (hy b hb) hle
    · rename_i hnle
      refine List.pairwise_cons.2 ⟨?_, ih hys⟩
      intro b hb
      rcases (mem_insertByDesc key x b ys).1 hb with rfl | hb
      · omega
      · exact hy b hb

theorem mem_sortByDesc {α : Type} (key : α → Nat) (a : α) (l : List α) :
    a ∈ sortByDesc key l ↔ a ∈ l := by
  induction l with
  | nil => simp [sortByDesc]
  | cons x xs ih =>
    simp [sortByDesc, mem_insertByDesc, ih, List.mem_cons]

theorem pairwise_sortByDesc {α : Type} (key : α → Nat) (l : List α) :
    (sortByDesc key l).Pairwise (fun a b => key b ≤ key a) := by
  induction l with
  | nil => simp [sortByDesc]
  | cons x xs ih => exact pairwise_insertByDesc key x _ ih

theorem insertByDesc_ne_nil {α : Type} (key : α → Nat) (x : α) (l : List α) :
    insertByDesc key x l ≠ [] := by
  cases l with
  | nil => simp [insertByDesc]
  | cons y ys =>
    simp only [insertByDesc]
    split <;> simp

theorem sortByDesc_eq_nil_iff {α : Type} (key : α → Nat) (l : List α) :
    sortByDesc key l = [] ↔ l = [] := by
  cases l with
  | nil => simp [sortByDesc]
  | cons x xs =>
    simp only [sortByDesc]
    constructor
    · intro h
      exact absurd h (insertByDesc_ne_nil key x _)
    · intro h
      exact absurd h (by simp)

/-- The head of a list sorted descending, i.e. the maximum:
validTimestamps.sort(desc)[0] in the overview handler. -/
def maxDesc (l : List Nat) : Option Nat :=
  (sortByDesc (fun x => x) l).head?

theorem maxDesc_eq_none_iff (l : List Nat) : maxDesc l = none ↔ l = [] := by
  unfold maxDesc
  rw [← sortByDesc_eq_nil_iff (fun x => x) l]
  cases sortByDesc (fun x => x) l <;> simp

theorem maxDesc_spec (l : List Nat) (m : Nat) (h : maxDesc l = some m) :
    m ∈ l ∧ ∀ x ∈ l, x ≤ m := by
  unfold maxDesc at h
  rcases hs : sortByDesc (fun x => x) l with _ | ⟨a, rest⟩
  · rw [hs] at h
    simp at h
  · rw [hs] at h
    simp at h
    subst h
    have hp := pairwise_sortByDesc (fun x => x) l
    rw [hs, List.pairwise_cons] at hp
    constructor
    · have ha : a ∈ sortByDesc (fun x => x) l := by
        rw [hs]; exact List.mem_cons_self a rest
      exact (mem_sortByDesc (fun x => x) a l).1 ha
    · intro x hx
      have hx2 : x ∈ sortByDesc (fun x => x) l := (mem_sortByDesc (fun x => x) x l).2 hx
      rw [hs] at hx2
      rcases List.mem_cons.1 hx2 with rfl | hx2
      · exact le_refl x
      · exact hp.1 x hx2

/-
  The environment: oracle functions for the Supabase auth endpoints
  (results are the (error, data) pairs the client returns), table contents
  for the relational queries, and error injections modelling a failed
  database call on each read path.
-/

/-- The external world a request runs against. -/
structure Env where
  signUp : String → String → Option String × Option User
  signIn : String → String → Option String × Option SessionData
  getUser : String → Option String × Option User
  insertProfile : ProfileInsert → Option String
  selectProfile : String → Option DbErr × Option Profile
  ordersTable : List OrderRow
  ordersError : Option String
  productsTable : List ProductRow
  productsListError : Option String
  productsDetailError : Option DbErr
  overviewError : Option String

/-- The .single() coercion as the pair (data, error) the client returns:
exactly one row gives that row and no error, anything else gives data null
and error PGRST116.  (data, error) both none is unrepresentable in the
client but the handlers branch on the pair, so the pair type is kept. -/
def single {α : Type} (l : List α) : Option α × Option DbErr :=
  match l with
  | [x] => (some x, none)
  | _ => (none, some pgrst116)

/-- The .single() coercion as an Except, for handlers that only ever see
one of data or error set. -/
def singleE {α : Type} (l : List α) : Except DbErr α :=
  match l with
  | [x] => .ok x
  | _ => .error pgrst116

/-- Storefront authentication middleware (api.js lines 154 to 179):
no sf-token cookie gives 401 No active session; a token the auth endpoint
rejects (error set or user null) clears the sf-token cookie and gives 401
Invalid session; otherwise the user is attached and the handler runs. -/
def authenticateStorefrontUser (env : Env) (sfToken : Option String) : MwResult :=
  match sfToken with
  | none => .halt 401 "No active session" []
  | some t =>
    match env.getUser t with
    | (some _, _) => .halt 401 "Invalid session" [.clear "sf-token" "/"]
    | (none, none) => .halt 401 "Invalid session" [.clear "sf-token" "/"]
    | (none, some u) => .proceed u

/-- Admin authentication middleware (api.js lines 216 to 240): no token
cookie gives 401; a rejected token gives 401; a missing profile row (error
or null data from the single-row select) gives 403; a role other than
admin gives 403; no failure path touches the cookie. -/
def authenticateAdmin (env : Env) (adminToken : Option String) : MwResult :=
  match adminToken with
  | none => .halt 401 "Missing admin token" []
  | some t =>
    match env.getUser t with
    | (some _, _) => .halt 401 "Invalid admin token" []
    | (none, none) => .halt 401 "Invalid admin token" []
    | (none, some u) =>
      match env.selectProfile u.id with
      | (some _, _) => .halt 403 "Admin profile not found." []
      | (none, none) => .halt 403 "Admin profile not found." []
      | (none, some p) =>
        if p.role ≠ "admin" then .halt 403 "Access Denied: Not an admin." []
        else .proceed u

/-- POST /store/register (api.js lines 33 to 63).  Returns the response
together with the trace of external writes.  A signUp error, or a signUp
success carrying no user, throws to the catch block: 500 with the error
message (or the fallback when the message is empty, mirroring the
JavaScript or-fallback on a falsy message).  A profile-insert error also
reaches the catch block; no compensating delete of the identity exists
anywhere in the handler.  Success is 201 with no cookie. -/
def storeRegister (env : Env) (nm email ph pw : String) :
    Resp Unit × List Effect :=
  match env.signUp email pw with
  | (some msg, _) =>
    (⟨500, [], .err (if msg = "" then "Registration failed" else msg)⟩,
     [.signUpCall email pw])
  | (none, none) =>
    (⟨500, [], .err "Signup successful but no user data returned."⟩,
     [.signUpCall email pw])
  | (none, some u) =>
    let row : ProfileInsert := ⟨u.id, nm, ph, email, "user"⟩
    match env.insertProfile row with
    | some msg =>
      (⟨500, [], .err (if msg = "" then "Registration failed" else msg)⟩,
       [.signUpCall email pw, .profileInsert row])
    | none =>
      (⟨201, [], .ok ()⟩, [.signUpCall email pw, .profileInsert row])

/-- POST /store/login (api.js lines 66 to 93).  Everything runs inside one
try block whose catch responds 401 with the message of whatever was
thrown: a sign-in error, or the TypeError raised by reading
session.access_token when the response carries no data or a null session.
A success sets the sf-token cookie with maxAge expires_in times 1000,
SameSite Lax, path root, and responds 200. -/
def storeLogin (env : Env) (email pw : String) : Resp Unit :=
  match env.signIn email pw with
  | (some msg, _) => ⟨401, [], .err (if msg = "" then "Invalid credentials" else msg)⟩
  | (none, none) => ⟨401, [], .err "TypeError: cannot read session of null"⟩
  | (none, some sd) =>
    match sd.session with
    | none => ⟨401, [], .err "TypeError: cannot read access_token of null"⟩
    | some s =>
      ⟨200, [.set "sf-token" s.access_token true (s.expires_in * 1000) "Lax" "/"],
       .ok ()⟩

/-- GET /store/me (api.js lines 96 to 136): the same token check as the
storefront middleware, then the profile select; a missing profile gives
404; success merges identity and profile (modelled as the pair). -/
def storeMe (env : Env) (sfToken : Option String) : Resp (User × Profile) :=
  match sfToken with
  | none => ⟨401, [], .err "No active session"⟩
  | some t =>
    match env.getUser t with
    | (some _, _) => ⟨401, [.clear "sf-token" "/"], .err "Invalid session"⟩
    | (none, none) => ⟨401, [.clear "sf-token" "/"], .err "Invalid session"⟩
    | (none, some u) =>
      match env.selectProfile u.id with
      | (some _, _) => ⟨404, [], .err "User profile not found."⟩
      | (none, none) => ⟨404, [], .err "User profile not found."⟩
      | (none, some p) => ⟨200, [], .ok (u, p)⟩

/-- GET /store/orders (api.js lines 184 to 209): storefront middleware,
then one query filtered to the authenticated id and ordered descending by
created_at; a query error throws to the catch block (500 with the message
or the fallback on an empty message); otherwise 200 with the rows. -/
def storeOrders (env : Env) (sfToken : Option String) : Resp (List OrderRow) :=
  match authenticateStorefrontUser env sfToken with
  | .halt s msg cs => ⟨s, cs, .err msg⟩
  | .proceed u =>
    match env.ordersError with
    | some msg => ⟨500, [], .err (if msg = "" then "Failed to fetch orders" else msg)⟩
    | none =>
      ⟨200, [],
       .ok (sortByDesc OrderRow.created_at
         (env.ordersTable.filter (fun r => decide (r.user_id = u.id))))⟩

/-- POST /login, the admin login (api.js lines 243 to 265): a sign-in
error gives 401 with its message; destructuring a null data object throws
to the catch block (500); a missing profile gives 403; a non-admin role
gives 403; only then the token cookie is set (maxAge expires_in times
1000, SameSite Lax, path root) and 200 returned; a null session makes the
cookie call throw (500). -/
def adminLogin (env : Env) (email pw : String) : Resp Unit :=
  match env.signIn email pw with
  | (some msg, _) => ⟨401, [], .err msg⟩
  | (none, none) => ⟨500, [], .err "TypeError: cannot destructure null"⟩
  | (none, some sd) =>
    match env.selectProfile sd.user.id with
    | (some _, _) => ⟨403, [], .err "Profile not found."⟩
    | (none, none) => ⟨403, [], .err "Profile not found."⟩
    | (none, some p) =>
      if p.role ≠ "admin" then ⟨403, [], .err "Not an administrator."⟩
      else
        match sd.session with
        | none => ⟨500, [], .err "TypeError: cannot read access_token of null"⟩
        | some s =>
          ⟨200, [.set "token" s.access_token true (s.expires_in * 1000) "Lax" "/"],
           .ok ()⟩

/-- GET /products, the public list (api.js lines 287 to 297): all rows
with status active, ordered descending by created_at (a null created_at
is keyed 0 here; no claim depends on where null-timestamp rows sort).
A query error gives 500 with its message. -/
def productsList (env : Env) : Resp (List ProductRow) :=
  match env.productsListError with
  | some msg => ⟨500, [], .err msg⟩
  | none =>
    ⟨200, [],
     .ok (sortByDesc (fun r => r.created_at.getD 0)
       (env.productsTable.filter (fun r => decide (r.status = "active"))))⟩

/-- GET /product/:id, the public detail (api.js lines 300 to 314): the
query filters by id and status active and coerces with .single(); an
error with code PGRST116 gives 404 Product not found or not active, any
other error gives 500 with its message, otherwise 200 with the row. -/
def productDetail (env : Env) (pid : String) : Resp ProductRow :=
  let call : Except DbErr ProductRow :=
    match env.productsDetailError with
    | some e => .error e
    | none =>
      singleE (env.productsTable.filter
        (fun r => decide (r.id = pid) && decide (r.status = "active")))
  match call with
  | .error dbe =>
    if dbe.code = "PGRST116" then ⟨404, [], .err "Product not found or not active."⟩
    else ⟨500, [], .err dbe.message⟩
  | .ok r => ⟨200, [], .ok r⟩

/-- The fields PUT /api/products/:id destructures from the request body. -/
structure ProductFields where
  name : String
  description : String
  status : String
  images : Option (List String)
  price : Nat
deriving Repr, DecidableEq

/-- PUT /api/products/:id (api.js lines 341 to 350): admin middleware,
then update rows matching the id (replacing the listed fields and setting
updated_at to the server time now), .select().single() the result, and
branch exactly as the source does: any error gives 500 with its message;
a null data with no error gives 404 Product not found; otherwise 200.
Because .single() reports PGRST116 whenever the update matched no row,
the 404 branch is unreachable. -/
def putProduct (env : Env) (adminToken : Option String) (pid : String)
    (f : ProductFields) (now : Nat) : Resp ProductRow :=
  match authenticateAdmin env adminToken with
  | .halt s msg cs => ⟨s, cs, .err msg⟩
  | .proceed _ =>
    let updatedRows :=
      (env.productsTable.filter (fun r => decide (r.id = pid))).map
        (fun r => { r with
          name := f.name, description := f.description, status := f.status,
          images := f.images, price := f.price, updated_at := some now })
    match single updatedRows with
    | (_, some dbe) => ⟨500, [], .err dbe.message⟩
    | (none, none) => ⟨404, [], .err "Product not found"⟩
    | (some r, none) => ⟨200, [], .ok r⟩

/-- The overview response object. -/
structure Stats where
  totalProducts : Nat
  activeProducts : Nat
  totalImages : Nat
  lastUpdated : Option Nat
deriving Repr, DecidableEq

/-- The images contribution of a row: the array length, or zero for a
non-array value (Array.isArray guard in the source). -/
def imagesLen (p : ProductRow) : Nat :=
  match p.images with
  | some l => l.length
  | none => 0

/-- The JavaScript expression updated_at or created_at: the coalesced
timestamp of a row, none when both are null. -/
def coalesceTs (p : ProductRow) : Option Nat :=
  match p.updated_at with
  | some t => some t
  | none => p.created_at

/-- The lastUpdated computation of the overview handler: null unless rows
exist, the timestamps are coalesced, the falsy ones dropped, and when any
remain the list is sorted descending and its head taken. -/
def computeLastUpdated (data : List ProductRow) : Option Nat :=
  if data.length > 0 then
    if (data.filterMap coalesceTs).length > 0 then
      (sortByDesc (fun x => x) (data.filterMap coalesceTs)).head?
    else none
  else none

/-- GET /api/overview, behind the admin middleware (api.js lines 364 to
389): fetch status, images and timestamps of all products, then compute
the four statistics locally; a query error throws to the catch block
(500 with its message). -/
def overviewRoute (env : Env) (adminToken : Option String) : Resp Stats :=
  match authenticateAdmin env adminToken with
  | .halt s msg cs => ⟨s, cs, .err msg⟩
  | .proceed _ =>
    match env.overviewError with
    | some msg => ⟨500, [], .err msg⟩
    | none =>
      let data := env.productsTable
      ⟨200, [],
       .ok ⟨data.length,
            (data.filter (fun p => decide (p.status = "active"))).length,
            data.foldl (fun s p => s + imagesLen p) 0,
            computeLastUpdated data⟩⟩

/-
  Concrete data for evaluating the embedding on closed inputs.
-/

def userA : User := ⟨"uA", "a@x"⟩

def profA : Profile := ⟨"A", "1", "a@x", 0, "user"⟩

def adminU : User := ⟨"uAdm", "adm@x"⟩

def adminProf : Profile := ⟨"Adm", "2", "adm@x", 0, "admin"⟩

def sess1 : Session := ⟨"tok1", 3600⟩

def prodActive : ProductRow :=
  ⟨"p1", "A", "d", "active", some ["i1", "i2"], 10, some 100, some 200⟩

def prodInactive : ProductRow :=
  ⟨"p2", "B", "d", "inactive", none, 5, some 50, none⟩

/-- A concrete world: one regular user, one admin, three orders (two for
the regular user, one for another id), one active and one inactive
product, and no injected database failures. -/
def envW : Env where
  signUp := fun _ _ => (none, some userA)
  signIn := fun em _ =>
    if em = "adm@x" then (none, some ⟨adminU, some sess1⟩)
    else if em = "a@x" then (none, some ⟨userA, some sess1⟩)
    else (some "Invalid login credentials", none)
  getUser := fun t =>
    if t = "tA" then (none, some userA)
    else if t = "tAdm" then (none, some adminU)
    else (some "invalid token", none)
  insertProfile := fun _ => none
  selectProfile := fun i =>
    if i = "uA" then (none, some profA)
    else if i = "uAdm" then (none, some adminProf)
    else (none, none)
  ordersTable := [⟨"o1", "uA", 5⟩, ⟨"o2", "uB", 9⟩, ⟨"o3", "uA", 7⟩]
  ordersError := none
  productsTable := [prodActive, prodInactive]
  productsListError := none
  productsDetailError := none
  overviewError := none

/-- A world whose only product row has both timestamps null. -/
def envNullTs : Env :=
  { envW with productsTable := [⟨"p0", "N", "d", "x", none, 0, none, none⟩] }

/-
  Small helper lemmas.
-/

theorem filter_eq_nil_of {α : Type} (p : α → Bool) (l : List α)
    (h : ∀ a ∈ l, p a = false) : l.filter p = [] := by
  induction l with
  | nil => rfl
  | cons x xs ih =>
    rw [List.filter_cons, h x (List.mem_cons_self x xs)]
    simp only [Bool.false_eq_true, if_false]
    exact ih (fun a ha => h a (List.mem_cons_of_mem x ha))

theorem foldl_add_imagesLen (l : List ProductRow) (n : Nat) :
    l.foldl (fun s p => s + imagesLen p) n = n + (l.map imagesLen).sum := by
  induction l generalizing n with
  | nil => simp
  | cons x xs ih =>
    simp only [List.foldl_cons, List.map_cons, List.sum_cons, ih]
    omega

theorem computeLastUpdated_eq (data : List ProductRow) :
    computeLastUpdated data = maxDesc (data.filterMap coalesceTs) := by
  unfold computeLastUpdated maxDesc
  cases data with
  | nil => simp [sortByDesc]
  | cons a l =>
    rw [if_pos (by simp)]
    rcases hv : (a :: l).filterMap coalesceTs with _ | ⟨b, m⟩
    · simp [sortByDesc]
    · rw [if_pos (by simp)]

theorem singleE_ok_mem {α : Type} (l : List α) (x : α)
    (h : singleE l = Except.ok x) : x ∈ l := by
  rcases l with _ | ⟨a, _ | ⟨b, m⟩⟩
  · simp [singleE] at h
  · simp [singleE] at h
    subst h
    simp
  · simp [singleE] at h

/-
  The claims.
-/

/-- Claim C3: for every request through the storefront authentication
middleware (and the equivalent check in GET /store/me): an absent
sf-token cookie fails with 401 No active session; a token whose
resolution errors or yields no identity clears the sf-token cookie and
fails with 401 Invalid session; otherwise the resolved identity is
attached and processing continues. -/
theorem authenticateStorefrontUser_spec (env : Env) (tok : Option String) :
    (tok = none →
      authenticateStorefrontUser env tok = .halt 401 "No active session" [] ∧
      storeMe env tok = ⟨401, [], .err "No active session"⟩) ∧
    (∀ t eo uo, tok = some t → env.getUser t = (eo, uo) →
      (eo ≠ none ∨ uo = none) →
      authenticateStorefrontUser env tok =
        .halt 401 "Invalid session" [.clear "sf-token" "/"] ∧
      storeMe env tok = ⟨401, [.clear "sf-token" "/"], .err "Invalid session"⟩) ∧
    (∀ t u, tok = some t → env.getUser t = (none, some u) →
      authenticateStorefrontUser env tok = .proceed u) := by
  refine ⟨?_, ?_, ?_⟩
  · rintro rfl
    exact ⟨rfl, rfl⟩
  · rintro t eo uo rfl hget hbad
    rcases eo with _ | e
    · rcases uo with _ | u
      · exact ⟨by simp [authenticateStorefrontUser, hget],
               by simp [storeMe, hget]⟩
      · rcases hbad with hbad | hbad
        · exact absurd rfl hbad
        · exact absurd hbad (by simp)
    · exact ⟨by simp [authenticateStorefrontUser, hget],
             by simp [storeMe, hget]⟩
  · rintro t u rfl hget
    simp [authenticateStorefrontUser, hget]

/-- Witness for claim C3: in the concrete world, a token the auth
endpoint rejects makes both the middleware and GET /store/me clear the
sf-token cookie and respond 401 Invalid session. -/
theorem authenticateStorefrontUser_spec_witness :
    authenticateStorefrontUser envW (some "bad") =
      .halt 401 "Invalid session" [.clear "sf-token" "/"] ∧
    storeMe envW (some "bad") =
      ⟨401, [.clear "sf-token" "/"], .err "Invalid session"⟩ :=
  (authenticateStorefrontUser_spec envW (some "bad")).2.1 "bad"
    (some "invalid token") none rfl rfl (Or.inl (by simp))

/-- Claim C2: for every request through the admin authentication
middleware: a resolved identity with no Profile row fails with 403; a
profile whose role is not admin fails with 403; no failure path performs
any cookie operation (in particular none clears the admin cookie); and
the handler runs with the identity attached exactly when the token
resolves and the profile exists with role admin. -/
theorem authenticateAdmin_spec (env : Env) (tok : Option String) :
    (∀ t u eo po, tok = some t → env.getUser t = (none, some u) →
      env.selectProfile u.id = (eo, po) → (eo ≠ none ∨ po = none) →
      authenticateAdmin env tok = .halt 403 "Admin profile not found." []) ∧
    (∀ t u p, tok = some t → env.getUser t = (none, some u) →
      env.selectProfile u.id = (none, some p) → p.role ≠ "admin" →
      authenticateAdmin env tok = .halt 403 "Access Denied: Not an admin." []) ∧
    (∀ s msg cs, authenticateAdmin env tok = .halt s msg cs → cs = []) ∧
    (∀ u, authenticateAdmin env tok = .proceed u ↔
      ∃ t, tok = some t ∧ env.getUser t = (none, some u) ∧
        ∃ p, env.selectProfile u.id = (none, some p) ∧ p.role = "admin") := by
  refine ⟨?_, ?_, ?_, ?_⟩
  · rintro t u eo po rfl hget hsel hbad
    rcases eo with _ | e
    · rcases po with _ | p
      · simp [authenticateAdmin, hget, hsel]
      · rcases hbad with hbad | hbad
        · exact absurd rfl hbad
        · exact absurd hbad (by simp)
    · simp [authenticateAdmin, hget, hsel]
  · rintro t u p rfl hget hsel hrole
    simp [authenticateAdmin, hget, hsel, hrole]
  · intro s msg cs h
    cases tok with
    | none =>
      simp [authenticateAdmin] at h
      exact h.2.2
    | some t =>
      rcases hget : env.getUser t with ⟨eo, uo⟩
      rcases eo with _ | e
      · rcases uo with _ | u
        · simp [authenticateAdmin, hget] at h
          exact h.2.2
        · rcases hsel : env.selectProfile u.id with ⟨po1, po2⟩
          rcases po1 with _ | e2
          · rcases po2 with _ | p
            · simp [authenticateAdmin, hget, hsel] at h
              exact h.2.2
            · by_cases hrole : p.role = "admin"
              · simp [authenticateAdmin, hget, hsel, hrole] at h
              · simp [authenticateAdmin, hget, hsel, hrole] at h
                exact h.2.2
          · simp [authenticateAdmin, hget, hsel] at h
            exact h.2.2
      · simp [authenticateAdmin, hget] at h
        exact h.2.2
  · intro u
    constructor
    · intro h
      cases tok with
      | none => simp [authenticateAdmin] at h
      | some t =>
        rcases hget : env.getUser t with ⟨eo, uo⟩
        rcases eo with _ | e
        · rcases uo with _ | u2
          · simp [authenticateAdmin, hget] at h
          · rcases hsel : env.selectProfile u2.id with ⟨po1, po2⟩
            rcases po1 with _ | e2
            · rcases po2 with _ | p
              · simp [authenticateAdmin, hget, hsel] at h
              · by_cases hrole : p.role = "admin"
                · simp [authenticateAdmin, hget, hsel, hrole] at h
                  subst h
                  exact ⟨t, rfl, hget, p, hsel, hrole⟩
                · simp [authenticateAdmin, hget, hsel, hrole] at h
            · simp [authenticateAdmin, hget, hsel] at h
        · simp [authenticateAdmin, hget] at h
    · rintro ⟨t, rfl, hget, p, hsel, hrole⟩
      simp [authenticateAdmin, hget, hsel, hrole]

/-- Witness for claim C2: in the concrete world, a valid token whose
profile has role user is refused with 403 and no cookie operation. -/
theorem authenticateAdmin_spec_witness :
    authenticateAdmin envW (some "tA") =
      .halt 403 "Access Denied: Not an admin." [] :=
  (authenticateAdmin_spec envW (some "tA")).2.1 "tA" userA profA rfl rfl rfl
    (by simp [profA])

/-- Claim C1: for every authenticated GET /store/orders request whose
query succeeds, the response is 200 with a sequence in which every row
has user_id equal to the authenticated id (so user A never receives a
row of user B), the sequence is ordered descending by created_at, and
when no matching rows exist it is the empty sequence, not an error. -/
theorem storeOrders_spec (env : Env) (tok : Option String) (u : User)
    (hauth : authenticateStorefrontUser env tok = .proceed u)
    (hdb : env.ordersError = none) :
    ∃ rows, storeOrders env tok = ⟨200, [], .ok rows⟩ ∧
      (∀ r ∈ rows, r.user_id = u.id) ∧
      rows.Pairwise (fun a b => b.created_at ≤ a.created_at) ∧
      ((∀ r ∈ env.ordersTable, r.user_id ≠ u.id) → rows = []) := by
  refine ⟨sortByDesc OrderRow.created_at
    (env.ordersTable.filter (fun r => decide (r.user_id = u.id))), ?_, ?_, ?_, ?_⟩
  · simp [storeOrders, hauth, hdb]
  · intro r hr
    have h1 := (mem_sortByDesc OrderRow.created_at r _).1 hr
    have h2 := List.mem_filter.1 h1
    exact of_decide_eq_true h2.2
  · exact pairwise_sortByDesc OrderRow.created_at _
  · intro hnone
    have hf : env.ordersTable.filter (fun r => decide (r.user_id = u.id)) = [] :=
      filter_eq_nil_of _ _ (fun r hr => decide_eq_false (hnone r hr))
    rw [hf]
    rfl

/-- Witness for claim C1: in the concrete world, the authenticated user
with id uA gets exactly the rows with user_id uA, newest first. -/
theorem storeOrders_spec_witness :
    ∃ rows, storeOrders envW (some "tA") = ⟨200, [], .ok rows⟩ ∧
      (∀ r ∈ rows, r.user_id = userA.id) ∧
      rows.Pairwise (fun a b => b.created_at ≤ a.created_at) ∧
      ((∀ r ∈ envW.ordersTable, r.user_id ≠ userA.id) → rows = []) :=
  storeOrders_spec envW (some "tA") userA rfl rfl

/-- Claim C4: for every POST /store/register request: a failed identity
creation fails the whole request with that error and writes no Profile
row; a failed Profile insert (whose role is fixed to user) fails the
request but performs no compensating delete of the created identity; a
success responds 201 and sets no cookie. -/
theorem storeRegister_spec (env : Env) (nm email ph pw : String) :
    (∀ msg dd, env.signUp email pw = (some msg, dd) →
      (storeRegister env nm email ph pw).1 =
        ⟨500, [], .err (if msg = "" then "Registration failed" else msg)⟩ ∧
      ∀ row, Effect.profileInsert row ∉ (storeRegister env nm email ph pw).2) ∧
    (∀ u msg, env.signUp email pw = (none, some u) →
      env.insertProfile ⟨u.id, nm, ph, email, "user"⟩ = some msg →
      (storeRegister env nm email ph pw).1.status = 500 ∧
      Effect.signUpCall email pw ∈ (storeRegister env nm email ph pw).2 ∧
      ∀ i, Effect.identityDelete i ∉ (storeRegister env nm email ph pw).2) ∧
    (∀ u, env.signUp email pw = (none, some u) →
      env.insertProfile ⟨u.id, nm, ph, email, "user"⟩ = none →
      (storeRegister env nm email ph pw).1 = ⟨201, [], .ok ()⟩) := by
  refine ⟨?_, ?_, ?_⟩
  · rintro msg dd hsu
    constructor
    · simp [storeRegister, hsu]
    · intro row
      simp [storeRegister, hsu]
  · rintro u msg hsu hins
    refine ⟨?_, ?_, ?_⟩
    · simp [storeRegister, hsu, hins]
    · simp [storeRegister, hsu, hins]
    · intro i
      simp [storeRegister, hsu, hins]
  · rintro u hsu hins
    simp [storeRegister, hsu, hins]

/-- Witness for claim C4: a fully successful registration in the
concrete world responds 201 with no cookie operation. -/
theorem storeRegister_spec_witness :
    (storeRegister envW "N" "a@x" "ph" "pw").1 = ⟨201, [], .ok ()⟩ :=
  (storeRegister_spec envW "N" "a@x" "ph" "pw").2.2 userA rfl rfl

/-- Claim C10: for every POST /store/login request, every failure,
including a rejected credential, a sign-in response with no data, and a
response whose session is null, produces 401 with the thrown error
message (the client error message when one is reported, with the
fallback text only when that message is empty); the handler never
responds 500. -/
theorem storeLogin_no_500 (env : Env) (email pw : String) :
    ((storeLogin env email pw).status = 200 ∨
      (storeLogin env email pw).status = 401) ∧
    (storeLogin env email pw).status ≠ 500 ∧
    (∀ msg dd, env.signIn email pw = (some msg, dd) →
      storeLogin env email pw =
        ⟨401, [], .err (if msg = "" then "Invalid credentials" else msg)⟩) := by
  have hmain : (storeLogin env email pw).status = 200 ∨
      (storeLogin env email pw).status = 401 := by
    rcases hs : env.signIn email pw with ⟨eo, dd⟩
    rcases eo with _ | msg
    · rcases dd with _ | sd
      · right
        simp [storeLogin, hs]
      · rcases hsess : sd.session with _ | s
        · right
          simp [storeLogin, hs, hsess]
        · left
          simp [storeLogin, hs, hsess]
    · right
      simp [storeLogin, hs]
  refine ⟨hmain, ?_, ?_⟩
  · rcases hmain with h | h <;> simp [h]
  · rintro msg dd hs
    simp [storeLogin, hs]

/-- Witness for claim C10: a rejected credential in the concrete world
yields 401 with the client error message. -/
theorem storeLogin_no_500_witness :
    storeLogin envW "bad@x" "pw" =
      ⟨401, [], .err "Invalid login credentials"⟩ :=
  (storeLogin_no_500 envW "bad@x" "pw").2.2 "Invalid login credentials" none rfl

/-- Claim C8: every successful login, storefront or admin, sets its
cookie with maxAge equal to the store-reported expiry in seconds times
1000, SameSite Lax and path root. -/
theorem login_cookie_spec (env : Env) (email pw : String) :
    (∀ sd s, env.signIn email pw = (none, some sd) → sd.session = some s →
      storeLogin env email pw =
        ⟨200, [.set "sf-token" s.access_token true (s.expires_in * 1000) "Lax" "/"],
         .ok ()⟩) ∧
    (∀ sd s p, env.signIn email pw = (none, some sd) → sd.session = some s →
      env.selectProfile sd.user.id = (none, some p) → p.role = "admin" →
      adminLogin env email pw =
        ⟨200, [.set "token" s.access_token true (s.expires_in * 1000) "Lax" "/"],
         .ok ()⟩) := by
  constructor
  · rintro sd s hs hsess
    simp [storeLogin, hs, hsess]
  · rintro sd s p hs hsess hsel hrole
    simp [adminLogin, hs, hsess, hsel, hrole]

/-- Witness for claim C8: the concrete storefront login sets the
sf-token cookie with maxAge 3600 times 1000. -/
theorem login_cookie_spec_witness :
    storeLogin envW "adm@x" "pw" =
      ⟨200,
       [.set "sf-token" sess1.access_token true (sess1.expires_in * 1000) "Lax" "/"],
       .ok ()⟩ :=
  (login_cookie_spec envW "adm@x" "pw").1 ⟨adminU, some sess1⟩ sess1 rfl rfl

/-- Claim C7: for every POST /login request: verified credentials with a
missing profile or a non-admin role give 403 and no cookie; a rejected
credential gives 401 and no cookie; and a cookie is set only on a 200
response for a verified admin, carrying that session token. -/
theorem adminLogin_spec (env : Env) (email pw : String) :
    (∀ msg dd, env.signIn email pw = (some msg, dd) →
      adminLogin env email pw = ⟨401, [], .err msg⟩) ∧
    (∀ sd eo po, env.signIn email pw = (none, some sd) →
      env.selectProfile sd.user.id = (eo, po) → (eo ≠ none ∨ po = none) →
      adminLogin env email pw = ⟨403, [], .err "Profile not found."⟩) ∧
    (∀ sd p, env.signIn email pw = (none, some sd) →
      env.selectProfile sd.user.id = (none, some p) → p.role ≠ "admin" →
      adminLogin env email pw = ⟨403, [], .err "Not an administrator."⟩) ∧
    ((adminLogin env email pw).cookies ≠ [] →
      (adminLogin env email pw).status = 200 ∧
      ∃ sd s p, env.signIn email pw = (none, some sd) ∧ sd.session = some s ∧
        env.selectProfile sd.user.id = (none, some p) ∧ p.role = "admin" ∧
        (adminLogin env email pw).cookies =
          [.set "token" s.access_token true (s.expires_in * 1000) "Lax" "/"]) := by
  refine ⟨?_, ?_, ?_, ?_⟩
  · rintro msg dd hs
    simp [adminLogin, hs]
  · rintro sd eo po hs hsel hbad
    rcases eo with _ | e2
    · rcases po with _ | p
      · simp [adminLogin, hs, hsel]
      · rcases hbad with hbad | hbad
        · exact absurd rfl hbad
        · exact absurd hbad (by simp)
    · simp [adminLogin, hs, hsel]
  · rintro sd p hs hsel hrole
    simp [adminLogin, hs, hsel, hrole]
  · intro hne
    rcases hs : env.signIn email pw with ⟨eo, dd⟩
    rcases eo with _ | msg
    · rcases dd with _ | sd
      · simp [adminLogin, hs] at hne
      · rcases hsel : env.selectProfile sd.user.id with ⟨po1, po2⟩
        rcases po1 with _ | e2
        · rcases po2 with _ | p
          · simp [adminLogin, hs, hsel] at hne
          · by_cases hrole : p.role = "admin"
            · rcases hsess : sd.session with _ | s
              · simp [adminLogin, hs, hsel, hrole, hsess] at hne
              · refine ⟨?_, sd, s, p, rfl, hsess, hsel, hrole, ?_⟩
                · simp [adminLogin, hs, hsel, hrole, hsess]
                · simp [adminLogin, hs, hsel, hrole, hsess]
            · simp [adminLogin, hs, hsel, hrole] at hne
        · simp [adminLogin, hs, hsel] at hne
    · simp [adminLogin, hs] at hne

/-- Witness for claim C7: in the concrete world, verified credentials of
the non-admin user are refused with 403 and no cookie. -/
theorem adminLogin_spec_witness :
    adminLogin envW "a@x" "pw" = ⟨403, [], .err "Not an administrator."⟩ :=
  (adminLogin_spec envW "a@x" "pw").2.2.1 ⟨userA, some sess1⟩ profA rfl rfl
    (by simp [profA])

/-- Claim C9: a GET /product/:id request for an id whose row exists but
is not active gets the same 404 response as a nonexistent id, and the
public detail and list routes only ever return active products. -/
theorem product_routes_active_only (env : Env) (pid : String) :
    (env.productsDetailError = none →
      (∀ r ∈ env.productsTable, r.id = pid → r.status ≠ "active") →
      productDetail env pid = ⟨404, [], .err "Product not found or not active."⟩) ∧
    (∀ r, (productDetail env pid).body = .ok r →
      r.id = pid ∧ r.status = "active") ∧
    (∀ rows, productsList env = ⟨200, [], .ok rows⟩ →
      ∀ r ∈ rows, r.status = "active") := by
  refine ⟨?_, ?_, ?_⟩
  · intro hde hno
    have hf : env.productsTable.filter
        (fun r => decide (r.id = pid) && decide (r.status = "active")) = [] :=
      filter_eq_nil_of _ _ (fun r hr => by
        by_cases hid : r.id = pid
        · have hst : decide (r.status = "active") = false :=
            decide_eq_false (hno r hr hid)
          simp [hid, hst]
        · have hid2 : decide (r.id = pid) = false := decide_eq_false hid
          simp [hid2])
    simp [productDetail, hde, hf, singleE, pgrst116]
  · intro r h
    rcases hde : env.productsDetailError with _ | e
    · rcases hsing : singleE (env.productsTable.filter
        (fun r => decide (r.id = pid) && decide (r.status = "active"))) with e2 | r2
      · by_cases hcode : e2.code = "PGRST116"
        · simp [productDetail, hde, hsing, hcode] at h
        · simp [productDetail, hde, hsing, hcode] at h
      · simp [productDetail, hde, hsing] at h
        subst h
        have hm := singleE_ok_mem _ _ hsing
        have h2 := List.mem_filter.1 hm
        simp at h2
        exact h2.2
    · by_cases hcode : e.code = "PGRST116"
      · simp [productDetail, hde, hcode] at h
      · simp [productDetail, hde, hcode] at h
  · intro rows h
    rcases hle : env.productsListError with _ | e
    · simp [productsList, hle] at h
      intro r hr
      rw [← h] at hr
      have h1 := (mem_sortByDesc _ r _).1 hr
      have h2 := List.mem_filter.1 h1
      exact of_decide_eq_true h2.2
    · simp [productsList, hle] at h

/-- Witness for claim C9: in the concrete world the id p2 exists but is
inactive, and the detail route responds exactly as for a missing id. -/
theorem product_routes_active_only_witness :
    productDetail envW "p2" = ⟨404, [], .err "Product not found or not active."⟩ :=
  (product_routes_active_only envW "p2").1 rfl (by decide)

/-- Claim C5 (showing the code bug): a PUT /api/products/:id request by
an authenticated admin for an id matching no row responds 500 carrying
the PGRST116 message, not the 404 the not-found branch would produce:
the .single() coercion reports an error on zero rows, and the error
branch fires before the data-null check, leaving that check unreachable. -/
theorem putProduct_missing_id_is_500 :
    putProduct envW (some "tAdm") "nope" ⟨"n", "d", "active", none, 1⟩ 42 =
      ⟨500, [], .err pgrst116.message⟩ ∧
    (putProduct envW (some "tAdm") "nope" ⟨"n", "d", "active", none, 1⟩ 42).status ≠ 404 := by
  constructor
  · rfl
  · decide

/-- Counterexample to claim C6 as stated: in a world whose single product
row has both timestamps null, a successful overview responds with
lastUpdated null although a row exists, so lastUpdated being null is not
equivalent to no rows existing. -/
theorem overview_lastUpdated_counterexample :
    overviewRoute envNullTs (some "tAdm") = ⟨200, [], .ok ⟨1, 0, 0, none⟩⟩ ∧
    envNullTs.productsTable.length ≠ 0 := by
  constructor
  · rfl
  · decide

/-- Claim C6 (amended): for every successful GET /api/overview request,
totalProducts is the number of rows, activeProducts the number of rows
with status active, totalImages the sum over rows of the images array
length with any non-array value contributing zero, and lastUpdated the
maximum of the coalesced timestamps updated_at else created_at over the
rows where that value is non-null, being null exactly when no row has a
non-null timestamp; in particular on zero products the response is all
zeroes with lastUpdated null. -/
theorem overview_stats (env : Env) (tok : Option String) (u : User)
    (hauth : authenticateAdmin env tok = .proceed u)
    (hdb : env.overviewError = none) :
    overviewRoute env tok =
      ⟨200, [],
       .ok ⟨env.productsTable.length,
            (env.productsTable.filter (fun p => decide (p.status = "active"))).length,
            (env.productsTable.map imagesLen).sum,
            maxDesc (env.productsTable.filterMap coalesceTs)⟩⟩ ∧
    (maxDesc (env.productsTable.filterMap coalesceTs) = none ↔
      env.productsTable.filterMap coalesceTs = []) ∧
    (∀ m, maxDesc (env.productsTable.filterMap coalesceTs) = some m →
      m ∈ env.productsTable.filterMap coalesceTs ∧
      ∀ x ∈ env.productsTable.filterMap coalesceTs, x ≤ m) ∧
    (env.productsTable = [] →
      overviewRoute env tok = ⟨200, [], .ok ⟨0, 0, 0, none⟩⟩) := by
  refine ⟨?_, maxDesc_eq_none_iff _, fun m hm => maxDesc_spec _ m hm, ?_⟩
  · simp [overviewRoute, hauth, hdb, foldl_add_imagesLen, computeLastUpdated_eq]
  · intro hempty
    simp [overviewRoute, hauth, hdb, hempty, computeLastUpdated, maxDesc, sortByDesc]

/-- Witness for claim C6: the amended statement evaluated in the
concrete world behind the admin token. -/
theorem overview_stats_witness :
    overviewRoute envW (some "tAdm") =
      ⟨200, [],
       .ok ⟨envW.productsTable.length,
            (envW.productsTable.filter (fun p => decide (p.status = "active"))).length,
            (envW.productsTable.map imagesLen).sum,
            maxDesc (envW.productsTable.filterMap coalesceTs)⟩⟩ ∧
    (maxDesc (envW.productsTable.filterMap coalesceTs) = none ↔
      envW.productsTable.filterMap coalesceTs = []) ∧
    (∀ m, maxDesc (envW.productsTable.filterMap coalesceTs) = some m →
      m ∈ envW.productsTable.filterMap coalesceTs ∧
      ∀ x ∈ envW.productsTable.filterMap coalesceTs, x ≤ m) ∧
    (envW.productsTable = [] →
      overviewRoute envW (some "tAdm") = ⟨200, [], .ok ⟨0, 0, 0, none⟩⟩) :=
  overview_stats envW (some "tAdm") adminU rfl rfl

end BrknStore
